import Mathlib

/-!
Verification of the evipy Node.js client's binary frame codec, credential
hash, and connection-session protocol logic, as a shallow embedding of
src/nodejs/src/utils/protocol.ts, src/nodejs/src/utils/hash.ts and
src/nodejs/src/client.ts.

JavaScript Buffers and strings are modelled as lists of natural numbers
(byte values, resp. UTF-16 char codes; all data handled here is in the
ASCII / latin1 range where the two coincide).  Platform primitives that are
not part of the repository (JSON.parse, the WHATWG UTF-8 decoder) are taken
as parameters of the decoding functions, so theorems quantify over them or
constrain them by explicit hypotheses stating the relevant platform facts.
-/

namespace Evipy

/-- Hex digit char code (lowercase), as produced by Buffer.toString with
the hex encoding. -/
def hexDigit (n : Nat) : Nat :=
  if n < 10 then 48 + n else 87 + n

/-- Model of Buffer.prototype.toString with the hex encoding: two lowercase
hex digit char codes per byte. -/
def toHex (l : List Nat) : List Nat :=
  l.flatMap (fun b => [hexDigit (b / 16), hexDigit (b % 16)])

/-- Model of Buffer.prototype.toString with the binary (latin1) encoding:
each byte becomes the char of the same code. On byte lists this is the
identity on codes. -/
def latin1Decode (l : List Nat) : List Nat := l

/-- Model of Buffer.prototype.toString with the ascii encoding: Node strips
the high bit of every byte. -/
def asciiDecode (l : List Nat) : List Nat :=
  l.map (fun b => b % 128)

/-- Model of String.prototype.split applied with the single-char separator
of code 0: JS split never drops empty pieces, and split of the empty string
is the one-element list holding the empty string. -/
def splitOnZero : List Nat → List (List Nat)
  | [] => [[]]
  | b :: rest =>
    if b = 0 then
      [] :: splitOnZero rest
    else
      match splitOnZero rest with
      | [] => [[b]]
      | p :: ps => (b :: p) :: ps

/-- Result of parseWidgetUpdate (protocol.ts lines 150-182): either the
error record with the raw payload as hex, or the record of the three
extracted fields. -/
inductive WidgetUpdateResult where
  | parseError (error : String) (rawHex : List Nat)
  | update (widgetId deviceId widgetValue : List Nat)
deriving DecidableEq, Repr

/-- Embedding of parseWidgetUpdate (protocol.ts lines 150-182): decode the
payload as latin1, split on null bytes; fewer than 2 parts is the explicit
error record carrying the payload as hex; otherwise deviceId is part 0,
widgetId part 2 when present (else empty), widgetValue part 3 when present
(else empty). The try/catch in the source cannot fire on this pure path. -/
def parseWidgetUpdate (payloadData : List Nat) : WidgetUpdateResult :=
  let parts := splitOnZero (latin1Decode payloadData)
  if parts.length < 2 then
    .parseError "Insufficient null terminators" (toHex payloadData)
  else
    .update
      (if parts.length > 2 then parts.getD 2 [] else [])
      (parts.getD 0 [])
      (if parts.length > 3 then parts.getD 3 [] else [])

/-- The per-char test of isPrintable (protocol.ts lines 227-234): the code
is in the range 0x20 to 0x7e, or is LF (0x0a), CR (0x0d) or TAB (0x09). -/
def printableCode (code : Nat) : Bool :=
  (0x20 ≤ code && code ≤ 0x7e) || code == 0x0a || code == 0x0d || code == 0x09

/-- Embedding of isPrintable (protocol.ts lines 222-239): every char code of
the string passes the printable test. -/
def isPrintable (str : List Nat) : Bool :=
  str.all printableCode

/-- Message header record of protocol.ts lines 6-15. The payloadType field
is the optional tag string set by the classifier. -/
structure MessageHeader where
  byte1 : Nat
  byte2 : Nat
  byte3 : Nat
  byte4 : Nat
  hasPayload : Bool
  headerHex : List Nat
  totalLength : Nat
  payloadType : Option String
deriving DecidableEq, Repr

/-- The decoded payload union of protocol.ts: the widget-update record, a
parsed JSON map (content held abstractly as the raw payload bytes), a
decoded text string, or the binary descriptor with hex, length and
preview. -/
inductive ParsedPayload where
  | widget (w : WidgetUpdateResult)
  | json (raw : List Nat)
  | text (s : List Nat)
  | binary (hex : List Nat) (length : Nat) (preview : List Nat)
deriving DecidableEq, Repr

/-- Parsed message record of protocol.ts lines 20-23. -/
structure ParsedMessage where
  header : Option MessageHeader
  payload : Option ParsedPayload
deriving DecidableEq, Repr

/-- Embedding of parseBinaryMessage (protocol.ts lines 35-140).

The two platform primitives the source leans on are passed in:
jsonOk models whether JSON.parse of the UTF-8 decoding of the payload
bytes succeeds, and utf8Dec models Buffer.toString with the utf-8
encoding (char codes of the WHATWG decoding). Inputs shorter than 4
bytes yield the null/null record; otherwise the four header bytes are
extracted, hasPayload is length > 4, and a present payload is classified:
byte2 equal to 0x14 forces the widget-update parse, else JSON, then
printable ascii, then printable utf-8, then the binary descriptor whose
preview is truncated to the first 50 bytes. -/
def parseBinaryMessage (jsonOk : List Nat → Bool)
    (utf8Dec : List Nat → List Nat) (data : List Nat) : ParsedMessage :=
  match data with
  | b1 :: b2 :: b3 :: b4 :: rest =>
    let hasPayload := decide (0 < rest.length)
    let basicHeader : List Nat := [b1, b2, b3, b4]
    let mk : Option String → Option ParsedPayload → ParsedMessage :=
      fun ptype payload =>
        { header := some
            { byte1 := b1, byte2 := b2, byte3 := b3, byte4 := b4
              hasPayload := hasPayload
              headerHex := toHex basicHeader
              totalLength := rest.length + 4
              payloadType := ptype }
          payload := payload }
    if rest.length = 0 then
      mk none none
    else if b2 = 0x14 then
      mk (some "widget_update") (some (.widget (parseWidgetUpdate rest)))
    else if jsonOk rest then
      mk (some "json") (some (.json rest))
    else if isPrintable (asciiDecode rest) then
      mk (some "ascii") (some (.text (asciiDecode rest)))
    else if isPrintable (utf8Dec rest) then
      mk (some "text") (some (.text (utf8Dec rest)))
    else
      mk (some "binary")
        (some (.binary (toHex rest) rest.length (toHex (rest.take 50))))
  | _ => { header := none, payload := none }

/-- Outbound payload union of createBinaryMessage (protocol.ts lines
194-200): absent, a string (represented by its UTF-8 bytes), or a
structured map (represented by the UTF-8 bytes of its JSON
serialization). -/
inductive OutPayload where
  | null
  | str (utf8Bytes : List Nat)
  | obj (jsonBytes : List Nat)
deriving DecidableEq, Repr

/-- Embedding of createBinaryMessage (protocol.ts lines 194-214): the four
header bytes (Buffer.from truncates each number modulo 256) followed by
the payload bytes when a payload is given. -/
def createBinaryMessage (payload : OutPayload)
    (byte1 byte2 byte3 byte4 : Nat) : List Nat :=
  let header : List Nat := [byte1 % 256, byte2 % 256, byte3 % 256, byte4 % 256]
  match payload with
  | .null => header
  | .str s => header ++ s
  | .obj j => header ++ j

/-! ## Credential hash (src/nodejs/src/utils/hash.ts)

The source calls Node's createHash with the sha256 algorithm; the FIPS 180-4
SHA-256 function is modelled here in full over byte lists, with 32-bit words
as naturals reduced modulo 2^32. -/

/-- Addition of 32-bit words. -/
def add32 (a b : Nat) : Nat := (a + b) % 4294967296

/-- Right rotation of a 32-bit word by n bits. -/
def rotr32 (n x : Nat) : Nat :=
  ((x >>> n) ||| (x <<< (32 - n))) % 4294967296

/-- SHA-256 message-schedule sigma0. -/
def ssig0 (x : Nat) : Nat := rotr32 7 x ^^^ rotr32 18 x ^^^ (x >>> 3)

/-- SHA-256 message-schedule sigma1. -/
def ssig1 (x : Nat) : Nat := rotr32 17 x ^^^ rotr32 19 x ^^^ (x >>> 10)

/-- SHA-256 compression Sigma0. -/
def bsig0 (x : Nat) : Nat := rotr32 2 x ^^^ rotr32 13 x ^^^ rotr32 22 x

/-- SHA-256 compression Sigma1. -/
def bsig1 (x : Nat) : Nat := rotr32 6 x ^^^ rotr32 11 x ^^^ rotr32 25 x

/-- SHA-256 choose function; complement taken within 32 bits. -/
def chFn (x y z : Nat) : Nat := (x &&& y) ^^^ ((x ^^^ 4294967295) &&& z)

/-- SHA-256 majority function. -/
def majFn (x y z : Nat) : Nat := (x &&& y) ^^^ (x &&& z) ^^^ (y &&& z)

/-- The 64 SHA-256 round constants, in decimal. -/
def sha256K : List Nat :=
  [1116352408, 1899447441, 3049323471, 3921009573, 961987163,
   1508970993, 2453635748, 2870763221, 3624381080, 310598401,
   607225278, 1426881987, 1925078388, 2162078206, 2614888103,
   3248222580, 3835390401, 4022224774, 264347078, 604807628,
   770255983, 1249150122, 1555081692, 1996064986, 2554220882,
   2821834349, 2952996808, 3210313671, 3336571891, 3584528711,
   113926993, 338241895, 666307205, 773529912, 1294757372,
   1396182291, 1695183700, 1986661051, 2177026350, 2456956037,
   2730485921, 2820302411, 3259730800, 3345764771, 3516065817,
   3600352804, 4094571909, 275423344, 430227734, 506948616,
   659060556, 883997877, 958139571, 1322822218, 1537002063,
   1747873779, 1955562222, 2024104815, 2227730452, 2361852424,
   2428436474, 2756734187, 3204031479, 3329325298]

/-- The 8 initial SHA-256 hash state words, in decimal. -/
def sha256H0 : List Nat :=
  [1779033703, 3144134277, 1013904242, 2773480762,
   1359893119, 2600822924, 528734635, 1541459225]

/-- Big-endian 8-byte encoding of a natural. -/
def be64 (n : Nat) : List Nat :=
  [(n >>> 56) % 256, (n >>> 48) % 256, (n >>> 40) % 256, (n >>> 32) % 256,
   (n >>> 24) % 256, (n >>> 16) % 256, (n >>> 8) % 256, n % 256]

/-- Big-endian 4-byte encoding of a 32-bit word. -/
def be32 (n : Nat) : List Nat :=
  [(n >>> 24) % 256, (n >>> 16) % 256, (n >>> 8) % 256, n % 256]

/-- SHA-256 padding: append 0x80, zeros to 56 mod 64, then the bit length
as 8 big-endian bytes. -/
def sha256Pad (msg : List Nat) : List Nat :=
  let len := msg.length
  let zeros := (119 - len % 64) % 64
  msg ++ [0x80] ++ List.replicate zeros 0 ++ be64 (8 * len)

/-- Group bytes into big-endian 32-bit words. -/
def toWords : List Nat → List Nat
  | a :: b :: c :: d :: rest =>
    (((a * 256 + b) * 256 + c) * 256 + d) :: toWords rest
  | _ => []

/-- Extend the 16 block words: acc holds the words generated so far in
reverse order; each step appends the next scheduled word. -/
def extendSchedule : Nat → List Nat → List Nat
  | 0, acc => acc.reverse
  | fuel + 1, acc =>
    let next := (ssig1 (acc.getD 1 0) + acc.getD 6 0 +
                 ssig0 (acc.getD 14 0) + acc.getD 15 0) % 4294967296
    extendSchedule fuel (next :: acc)

/-- The full 64-word message schedule of one block. -/
def schedule (blockWords : List Nat) : List Nat :=
  extendSchedule 48 blockWords.reverse

/-- One SHA-256 round: state is the word list a..h, kw the round constant
paired with the scheduled word. -/
def compressStep (state : List Nat) (kw : Nat × Nat) : List Nat :=
  match state with
  | [a, b, c, d, e, f, g, h] =>
    let t1 := (h + bsig1 e + chFn e f g + kw.1 + kw.2) % 4294967296
    let t2 := (bsig0 a + majFn a b c) % 4294967296
    [add32 t1 t2, a, b, c, add32 d t1, e, f, g]
  | other => other

/-- Compress one 64-byte block into the running hash state. -/
def compressBlock (h : List Nat) (block : List Nat) : List Nat :=
  let ws := schedule (toWords block)
  let final := (sha256K.zip ws).foldl compressStep h
  (h.zip final).map (fun p => add32 p.1 p.2)

/-- Split a padded message into 64-byte blocks, with fuel bounding the
recursion depth. -/
def chunks64 : Nat → List Nat → List (List Nat)
  | _, [] => []
  | 0, l => [l]
  | fuel + 1, l => l.take 64 :: chunks64 fuel (l.drop 64)

/-- SHA-256 of a byte list, as 32 digest bytes. -/
def sha256 (msg : List Nat) : List Nat :=
  let padded := sha256Pad msg
  ((chunks64 padded.length padded).foldl compressBlock sha256H0).flatMap be32

/-- Byte list of an ASCII Lean string: for the ASCII inputs used here the
char codes coincide with the UTF-8 bytes. -/
def strBytes (s : String) : List Nat := s.data.map Char.toNat

/-- The standard base64 alphabet as char codes. -/
def b64Alphabet : List Nat :=
  strBytes "ABCDEFGHIJKLMNOPQRSTUVWXYZabcdefghijklmnopqrstuvwxyz0123456789+/"

/-- Char code of the base64 digit with the given 6-bit value. -/
def b64Char (n : Nat) : Nat := b64Alphabet.getD n 0

/-- Standard padded base64 encoding of a byte list, as char codes. -/
def base64Encode : List Nat → List Nat
  | a :: b :: c :: rest =>
    let n := (a % 256) * 65536 + (b % 256) * 256 + c % 256
    b64Char (n / 262144) :: b64Char (n / 4096 % 64) ::
      b64Char (n / 64 % 64) :: b64Char (n % 64) :: base64Encode rest
  | [a, b] =>
    let n := (a % 256) * 65536 + (b % 256) * 256
    [b64Char (n / 262144), b64Char (n / 4096 % 64), b64Char (n / 64 % 64), 61]
  | [a] =>
    let n := (a % 256) * 65536
    [b64Char (n / 262144), b64Char (n / 4096 % 64), 61, 61]
  | [] => []

/-- Model of String.prototype.toLowerCase on the ASCII range: upper-case
letters gain 32, all other codes are unchanged (the Unicode simple lowercase
mapping coincides with this on ASCII). -/
def lowerByte (b : Nat) : Nat :=
  if 65 ≤ b ∧ b ≤ 90 then b + 32 else b

/-- Embedding of calculateHash (hash.ts lines 22-40): SHA-256 of the
lower-cased email, concatenate the password bytes with that digest, SHA-256
again, base64-encode. The password is used verbatim. -/
def calculateHash (email password : List Nat) : List Nat :=
  let emailHash := sha256 (email.map lowerByte)
  let combined := password ++ emailHash
  base64Encode (sha256 combined)

/-! ## Connection session and exploration driver (src/nodejs/src/client.ts)

The session state the claims touch is the outbound message counter and
whether the websocket object exists. Handshake-stage response handling is
modelled as functions from the optional decoded payload returned by listen
to an Except value: a JavaScript throw is the error case. -/

/-- The session-state slice of EviqoWebsocketConnection relevant here: the
outbound message counter (client.ts line 54) and whether the ws field is
non-null. -/
structure SessionState where
  messageCounter : Nat
  wsCreated : Bool
deriving DecidableEq, Repr

/-- Embedding of sendMessage (client.ts lines 443-475): with no websocket
the call logs and returns without sending or touching the counter. With an
omitted fourth header byte the current counter value is used and the counter
is then incremented; with an explicit fourth byte the counter is untouched.
The encoded frame is returned alongside the new state. -/
def sendMessage (st : SessionState) (payload : OutPayload)
    (b1 b2 b3 : Nat) (b4 : Option Nat) : Option (List Nat) × SessionState :=
  if st.wsCreated then
    match b4 with
    | some b => (some (createBinaryMessage payload b1 b2 b3 b), st)
    | none =>
      (some (createBinaryMessage payload b1 b2 b3 st.messageCounter),
        { st with messageCounter := st.messageCounter + 1 })
  else
    (none, st)

/-- Embedding of the response handling in issueInitialization (client.ts
lines 178-182): a null payload from listen throws the stated error,
otherwise the stage completes. -/
def issueInitializationCheck (resp : Option ParsedPayload) :
    Except String Unit :=
  match resp with
  | none => .error "Init message failed"
  | some _ => .ok ()

/-- Embedding of the response handling in login (client.ts lines 214-218):
a null payload throws the stated error, otherwise the payload is stored as
the user profile. -/
def loginCheck (resp : Option ParsedPayload) : Except String ParsedPayload :=
  match resp with
  | none => .error "Did not get back user payload"
  | some p => .ok p

/-- Embedding of the response handling in queryDevices (client.ts lines
252-261): the payload is cast and its docs field iterated with no null
check, so a null payload raises a TypeError when docs is read from null.
The successful docs walk is held abstract (the claims examined here concern
only the null case). -/
def queryDevicesHandle (resp : Option ParsedPayload) :
    Except String ParsedPayload :=
  match resp with
  | none => .error "TypeError: cannot read properties of null (reading docs)"
  | some p => .ok p

/-- Embedding of requestChargingStatus (client.ts lines 270-312) as a
function of the two listen results: with no websocket the stated error is
thrown; otherwise the first response (the device-select acknowledgement) is
only logged, whatever it is, and the second response's payload is returned
unchecked as the device page, null included. -/
def requestChargingStatusModel (wsCreated : Bool)
    (_resp1 resp2 : Option ParsedPayload) :
    Except String (Option ParsedPayload) :=
  if wsCreated then
    .ok resp2
  else
    .error "Cannot request charging status before websocket is created"

/-- The widgetUpdate event record the repository documents for external
observers (src/nodejs/src/models/widget-update.ts; README section Events). -/
structure WidgetUpdateEvent where
  widgetId : List Nat
  deviceId : List Nat
  widgetValue : List Nat
deriving DecidableEq, Repr

/-- Model of the one-shot message handler registered by listen (client.ts
lines 401-413): the received binary message is decoded with
parseBinaryMessage, a widget_update payload is logged, the handler is
removed and the parsed result returned. client.ts contains no call of
EventEmitter.emit, so the list of widgetUpdate events delivered to external
observers by handling a frame is empty for every frame. -/
def listenOnMessage (jsonOk : List Nat → Bool)
    (utf8Dec : List Nat → List Nat) (data : List Nat) :
    ParsedMessage × List WidgetUpdateEvent :=
  (parseBinaryMessage jsonOk utf8Dec data, [])

/-- A restriction of ECMAScript JSON.parse acceptance to nonnegative integer
literals: a nonempty all-digit string with no superfluous leading zero is a
valid JSON number, so JSON.parse succeeds on it. Used to instantiate the
jsonOk parameter of parseBinaryMessage at concrete inputs on which the
platform JSON.parse is known to succeed. -/
def jsonIntLit (bytes : List Nat) : Bool :=
  !bytes.isEmpty && bytes.all (fun b => 48 ≤ b && b ≤ 57) &&
    (bytes.length == 1 || bytes.headD 0 != 48)

/-- The classification tag a decode assigns: the payloadType field of the
resulting header, when a header results at all. -/
def classifierTag (jsonOk : List Nat → Bool) (utf8Dec : List Nat → List Nat)
    (data : List Nat) : Option (Option String) :=
  (parseBinaryMessage jsonOk utf8Dec data).header.map (fun h => h.payloadType)

/-! ## Supporting lemmas -/

/-- Splitting a list without null bytes yields the single whole piece. -/
theorem splitOnZero_of_not_mem {l : List Nat} (h : 0 ∉ l) :
    splitOnZero l = [l] := by
  induction l with
  | nil => rfl
  | cons b rest ih =>
    have hb : ¬b = 0 := fun hb => h (hb ▸ List.mem_cons_self b rest)
    have hr : 0 ∉ rest := fun hm => h (List.mem_cons_of_mem _ hm)
    simp [splitOnZero, hb, ih hr]

/-- A printable char code is below 128. -/
theorem printableCode_lt_128 {b : Nat} (h : printableCode b = true) :
    b < 128 := by
  simp only [printableCode, Bool.or_eq_true, Bool.and_eq_true,
    decide_eq_true_eq, beq_iff_eq] at h
  rcases h with ⟨⟨h1, h2⟩ | h1⟩ | h1 | h1 <;> omega

/-- Node's ascii decoding is the identity on fully printable byte lists. -/
theorem asciiDecode_of_printable {l : List Nat}
    (h : l.all printableCode = true) : asciiDecode l = l := by
  induction l with
  | nil => rfl
  | cons b rest ih =>
    simp only [List.all_cons, Bool.and_eq_true] at h
    have hb : b % 128 = b := Nat.mod_eq_of_lt (printableCode_lt_128 h.1)
    simp only [asciiDecode, List.map_cons] at ih ⊢
    rw [hb, ih h.2]

/-- FIPS 180-4 test vector: the SHA-256 model digests the three-byte
message abc to the published value, validating the embedding of Node's
createHash against the standard. -/
theorem sha256_model_fips_vector :
    sha256 (strBytes "abc") =
      [0xba, 0x78, 0x16, 0xbf, 0x8f, 0x01, 0xcf, 0xea, 0x41, 0x41, 0x40, 0xde,
       0x5d, 0xae, 0x22, 0x23, 0xb0, 0x03, 0x61, 0xa3, 0x96, 0x17, 0x7a, 0x9c,
       0xb4, 0x10, 0xff, 0x61, 0xf2, 0x00, 0x15, 0xad] := by decide

/-! ## Claims -/

/-- C5: for every input byte sequence shorter than 4 bytes, decode returns
a null header and a null payload; the decode path is a total function, so
no exception can arise. -/
theorem decode_short_input_null_null (jsonOk : List Nat → Bool)
    (u8 : List Nat → List Nat) (data : List Nat) (h : data.length < 4) :
    parseBinaryMessage jsonOk u8 data =
      { header := none, payload := none } := by
  rcases data with _ | ⟨a, _ | ⟨b, _ | ⟨c, _ | ⟨d, rest⟩⟩⟩⟩
  · rfl
  · rfl
  · rfl
  · rfl
  · exfalso
    simp only [List.length_cons] at h
    omega

/-- Witness for C5 at the concrete three-byte input. -/
theorem decode_short_input_null_null_witness :
    ([0, 1, 2] : List Nat).length < 4 ∧
      parseBinaryMessage (fun _ => false) id [0, 1, 2] =
        { header := none, payload := none } :=
  ⟨by decide, decode_short_input_null_null (fun _ => false) id [0, 1, 2] (by decide)⟩

/-- C6: a telemetry payload with no null byte (hence fewer than 2
null-delimited segments) parses to the explicit error record whose rawHex
field is the hex rendering of the original payload bytes; the parse is a
total function, so no exception can arise. -/
theorem widget_update_error_on_few_segments (pd : List Nat) (h : 0 ∉ pd) :
    parseWidgetUpdate pd =
      .parseError "Insufficient null terminators" (toHex pd) := by
  simp [parseWidgetUpdate, latin1Decode, splitOnZero_of_not_mem h]

/-- Witness for C6 at the bytes of the string invalid. -/
theorem widget_update_error_on_few_segments_witness :
    (0 ∉ strBytes "invalid") ∧
      parseWidgetUpdate (strBytes "invalid") =
        .parseError "Insufficient null terminators" (toHex (strBytes "invalid")) :=
  ⟨by decide, widget_update_error_on_few_segments (strBytes "invalid") (by decide)⟩

/-- Any decode of a 4-byte-headed input reproduces the first four bytes in
the header record, whatever the payload classification does. -/
theorem parse_header_of_cons (jsonOk : List Nat → Bool)
    (u8 : List Nat → List Nat) (b1 b2 b3 b4 : Nat) (rest : List Nat) :
    ((parseBinaryMessage jsonOk u8 (b1 :: b2 :: b3 :: b4 :: rest)).header.map
      (fun h => (h.byte1, h.byte2, h.byte3, h.byte4))) = some (b1, b2, b3, b4) := by
  simp only [parseBinaryMessage]
  split
  · rfl
  · split
    · rfl
    · split
      · rfl
      · split
        · rfl
        · split
          · rfl
          · rfl

/-- C4: decoding the bytes produced by encode yields a non-null header
whose four bytes equal the header tuple given to encode, for every payload
kind; the tuple's values are bytes (below 256). -/
theorem decode_encode_header_roundtrip (jsonOk : List Nat → Bool)
    (u8 : List Nat → List Nat) (payload : OutPayload) (b1 b2 b3 b4 : Nat)
    (h1 : b1 < 256) (h2 : b2 < 256) (h3 : b3 < 256) (h4 : b4 < 256) :
    ((parseBinaryMessage jsonOk u8
        (createBinaryMessage payload b1 b2 b3 b4)).header.map
      (fun h => (h.byte1, h.byte2, h.byte3, h.byte4))) = some (b1, b2, b3, b4) := by
  have e1 : b1 % 256 = b1 := Nat.mod_eq_of_lt h1
  have e2 : b2 % 256 = b2 := Nat.mod_eq_of_lt h2
  have e3 : b3 % 256 = b3 := Nat.mod_eq_of_lt h3
  have e4 : b4 % 256 = b4 := Nat.mod_eq_of_lt h4
  cases payload <;>
    simp only [createBinaryMessage, List.cons_append, List.nil_append] <;>
    rw [e1, e2, e3, e4] <;>
    exact parse_header_of_cons jsonOk u8 b1 b2 b3 b4 _

/-- Witness for C4 at a concrete header and string payload. -/
theorem decode_encode_header_roundtrip_witness :
    (1 : Nat) < 256 ∧ (0x14 : Nat) < 256 ∧ (3 : Nat) < 256 ∧ (4 : Nat) < 256 ∧
      ((parseBinaryMessage (fun _ => false) id
          (createBinaryMessage (.str [104, 105]) 1 0x14 3 4)).header.map
        (fun h => (h.byte1, h.byte2, h.byte3, h.byte4))) = some (1, 0x14, 3, 4) :=
  ⟨by decide, by decide, by decide, by decide,
    decode_encode_header_roundtrip (fun _ => false) id (.str [104, 105]) 1 0x14 3 4
      (by decide) (by decide) (by decide) (by decide)⟩

/-- C9: encoding the empty string gives exactly the 4 header bytes, the
same frame encoding null gives; and any 4-byte input decodes with
hasPayload false and a null payload, so a payload-present-but-empty frame
cannot occur and an empty-string payload cannot round-trip. -/
theorem empty_string_encodes_as_header_only (jsonOk : List Nat → Bool)
    (u8 : List Nat → List Nat) (b1 b2 b3 b4 : Nat) :
    createBinaryMessage (.str []) b1 b2 b3 b4 =
        createBinaryMessage .null b1 b2 b3 b4 ∧
      (createBinaryMessage (.str []) b1 b2 b3 b4).length = 4 ∧
      (∀ data : List Nat, data.length = 4 →
        ∃ h, (parseBinaryMessage jsonOk u8 data).header = some h ∧
          h.hasPayload = false ∧
          (parseBinaryMessage jsonOk u8 data).payload = none) := by
  refine ⟨by simp [createBinaryMessage], by simp [createBinaryMessage], ?_⟩
  intro data hlen
  rcases data with _ | ⟨a, _ | ⟨b, _ | ⟨c, _ | ⟨d, rest⟩⟩⟩⟩ <;>
    simp only [List.length_cons, List.length_nil] at hlen
  · omega
  · omega
  · omega
  · omega
  · have hr : rest = [] := List.length_eq_zero.mp (by omega)
    subst hr
    exact ⟨_, rfl, rfl, rfl⟩

/-- Witness for C9: the inner decode statement at a concrete 4-byte
input. -/
theorem empty_string_encodes_as_header_only_witness :
    ([9, 9, 9, 9] : List Nat).length = 4 ∧
      ∃ h, (parseBinaryMessage (fun _ => false) id [9, 9, 9, 9]).header = some h ∧
        h.hasPayload = false ∧
        (parseBinaryMessage (fun _ => false) id [9, 9, 9, 9]).payload = none :=
  ⟨by decide,
    (empty_string_encodes_as_header_only (fun _ => false) id 9 9 9 9).2.2
      [9, 9, 9, 9] (by decide)⟩

/-- C8: on a live session, a sendMessage call with the fourth header byte
omitted stamps the current counter value into the frame's fourth header
byte (modulo 256, exactly the counter while it is below 256) and increments
the counter by exactly 1, so the counter strictly increases across
auto-mode sends; a call with an explicit fourth byte sends that byte and
leaves the whole session state unchanged. -/
theorem send_message_counter (st : SessionState) (payload : OutPayload)
    (b1 b2 b3 : Nat) (hws : st.wsCreated = true) :
    ((sendMessage st payload b1 b2 b3 none).2.messageCounter =
        st.messageCounter + 1 ∧
      ∃ bytes, (sendMessage st payload b1 b2 b3 none).1 = some bytes ∧
        bytes.getD 3 0 = st.messageCounter % 256 ∧
        (st.messageCounter < 256 → bytes.getD 3 0 = st.messageCounter)) ∧
    ∀ b4, sendMessage st payload b1 b2 b3 (some b4) =
      (some (createBinaryMessage payload b1 b2 b3 b4), st) := by
  refine ⟨⟨by simp [sendMessage, hws], ?_⟩, fun b4 => by simp [sendMessage, hws]⟩
  refine ⟨createBinaryMessage payload b1 b2 b3 st.messageCounter,
    by simp [sendMessage, hws], ?_, ?_⟩
  · cases payload <;> simp [createBinaryMessage]
  · intro hlt
    cases payload <;> simp [createBinaryMessage, Nat.mod_eq_of_lt hlt]

/-- Witness for C8 on a live session with counter 5. -/
theorem send_message_counter_witness :
    (SessionState.mk 5 true).wsCreated = true ∧
      (((sendMessage ⟨5, true⟩ .null 0 6 0 none).2.messageCounter = 5 + 1 ∧
        ∃ bytes, (sendMessage ⟨5, true⟩ .null 0 6 0 none).1 = some bytes ∧
          bytes.getD 3 0 = 5 % 256 ∧ (5 < 256 → bytes.getD 3 0 = 5)) ∧
      ∀ b4, sendMessage ⟨5, true⟩ .null 0 6 0 (some b4) =
        (some (createBinaryMessage .null 0 6 0 b4), ⟨5, true⟩)) :=
  ⟨rfl, send_message_counter ⟨5, true⟩ .null 0 6 0 rfl⟩

/-- C2 counterexample: with both listen results null, requestChargingStatus
raises no error at all — the device-select acknowledgement is never
inspected and the null device page is returned as a success — refuting
that every handshake stage treats a null response payload as a fatal
error. -/
theorem handshake_null_not_always_fatal :
    requestChargingStatusModel true none none = .ok none := rfl

/-- C2 amended: Init, Login and Device Query abort on a null response
payload (the first two by an explicit check, Device Query by reading the
docs field of null), while the Device Select acknowledgement is ignored
whatever it is and a null Device Page payload is returned without any
error. -/
theorem handshake_null_handling :
    issueInitializationCheck none = .error "Init message failed" ∧
      loginCheck none = .error "Did not get back user payload" ∧
      queryDevicesHandle none =
        .error "TypeError: cannot read properties of null (reading docs)" ∧
      (∀ r2, requestChargingStatusModel true none r2 = .ok r2) ∧
      (∀ r1, requestChargingStatusModel true r1 none = .ok none) :=
  ⟨rfl, rfl, rfl, fun _ => rfl, fun _ => rfl⟩

/-- The telemetry frame of the spec's test vector: header 0x00140000 and
payload 89349 NUL vw NUL 5 NUL 241.29. -/
def telemetryFrame : List Nat :=
  [0x00, 0x14, 0x00, 0x00] ++ strBytes "89349" ++ [0] ++ strBytes "vw" ++
    [0] ++ strBytes "5" ++ [0] ++ strBytes "241.29"

/-- C1: handling a received frame in listen delivers no widgetUpdate event
to observers — the emitted-event list is empty for every frame and every
platform oracle — even though the concrete telemetry frame decodes to a
successful widget_update payload, for which the documentation promises one
republished event. -/
theorem listen_republishes_no_event :
    (∀ (jsonOk : List Nat → Bool) (u8 : List Nat → List Nat) (data : List Nat),
      (listenOnMessage jsonOk u8 data).2 = []) ∧
      ((listenOnMessage jsonIntLit id telemetryFrame).1.header.map
        (fun h => h.payloadType)) = some (some "widget_update") ∧
      (listenOnMessage jsonIntLit id telemetryFrame).1.payload =
        some (.widget (.update (strBytes "5") (strBytes "89349")
          (strBytes "241.29"))) :=
  ⟨fun _ _ _ => rfl, by decide, by decide⟩

/-- C10 as stated: every payload with exactly 2 or 3 null-delimited
segments parses to a success record whose widgetId (and widgetValue) are
empty. -/
def twoOrThreeSegmentsClaim : Prop :=
  ∀ pd : List Nat,
    (splitOnZero pd).length = 2 ∨ (splitOnZero pd).length = 3 →
    parseWidgetUpdate pd = .update [] ((splitOnZero pd).getD 0 []) []

/-- C10 counterexample: the payload a NUL b NUL c has exactly 3 segments
and parses with widgetId equal to the third segment c, not the empty
string. -/
theorem three_segment_widget_id_nonempty : ¬ twoOrThreeSegmentsClaim := by
  intro hclaim
  have h := hclaim [97, 0, 98, 0, 99] (by decide)
  exact absurd h (by decide)

/-- C10 amended: a payload with 2 or 3 null-delimited segments parses to a
success record (no error field) with deviceId the first segment and
widgetValue empty; widgetId is empty for 2 segments but equals the third
segment for 3 segments; and the error record arises exactly when there are
fewer than 2 segments. -/
theorem widget_update_two_or_three_segments (pd : List Nat) :
    ((splitOnZero pd).length = 2 →
      parseWidgetUpdate pd = .update [] ((splitOnZero pd).getD 0 []) []) ∧
      ((splitOnZero pd).length = 3 →
        parseWidgetUpdate pd =
          .update ((splitOnZero pd).getD 2 []) ((splitOnZero pd).getD 0 []) []) ∧
      (2 ≤ (splitOnZero pd).length →
        ∃ w d v, parseWidgetUpdate pd = .update w d v) ∧
      ((splitOnZero pd).length < 2 →
        parseWidgetUpdate pd =
          .parseError "Insufficient null terminators" (toHex pd)) := by
  refine ⟨?_, ?_, ?_, ?_⟩
  · intro h
    simp [parseWidgetUpdate, latin1Decode, h]
  · intro h
    simp [parseWidgetUpdate, latin1Decode, h]
  · intro h
    have hnot : ¬(splitOnZero pd).length < 2 := by omega
    simp only [parseWidgetUpdate, latin1Decode, if_neg hnot]
    exact ⟨_, _, _, rfl⟩
  · intro h
    simp only [parseWidgetUpdate, latin1Decode, if_pos h]

/-- Witness for C10 at the two-segment payload a NUL b and the
three-segment payload a NUL b NUL c. -/
theorem widget_update_two_or_three_segments_witness :
    (splitOnZero [97, 0, 98]).length = 2 ∧
      parseWidgetUpdate [97, 0, 98] = .update [] [97] [] ∧
      (splitOnZero [97, 0, 98, 0, 99]).length = 3 ∧
      parseWidgetUpdate [97, 0, 98, 0, 99] = .update [99] [97] [] := by
  refine ⟨by decide, ?_, by decide, ?_⟩
  · have h := (widget_update_two_or_three_segments [97, 0, 98]).1 (by decide)
    simpa using h
  · have h := (widget_update_two_or_three_segments [97, 0, 98, 0, 99]).2.1 (by decide)
    simpa using h

/-- C3 as stated: every non-telemetry frame whose payload bytes are all in
the printable range gets classified as text (payload type ascii or
text). -/
def printableAlwaysTextClaim : Prop :=
  ∀ (jsonOk : List Nat → Bool) (u8 : List Nat → List Nat)
    (b1 b2 b3 b4 : Nat) (pd : List Nat),
    b2 ≠ 0x14 → pd ≠ [] → pd.all printableCode = true →
    classifierTag jsonOk u8 (b1 :: b2 :: b3 :: b4 :: pd) = some (some "ascii") ∨
    classifierTag jsonOk u8 (b1 :: b2 :: b3 :: b4 :: pd) = some (some "text")

/-- C3 counterexample: the all-printable payload 12 is valid JSON (here the
JSON oracle is instantiated with the integer-literal fragment of JSON.parse,
which accepts it), so the frame classifies as json, not as text. -/
theorem printable_payload_can_classify_json : ¬ printableAlwaysTextClaim := by
  intro hclaim
  have h := hclaim jsonIntLit id 0 0 0 0 [49, 50] (by decide) (by decide) (by decide)
  rcases h with h | h <;> exact absurd h (by decide)

/-- C3 amended: a non-telemetry frame with a nonempty all-printable payload
is never classified binary — it classifies as json when the JSON parse
succeeds and as ascii text otherwise; and a payload containing a byte in
0x00 to 0x08 classifies as binary, given the platform facts that JSON.parse
fails on it and that its UTF-8 decoding retains a char code at most 8. -/
theorem classifier_printability (jsonOk : List Nat → Bool)
    (u8 : List Nat → List Nat) (b1 b2 b3 b4 : Nat) (pd : List Nat)
    (hb2 : b2 ≠ 0x14) (hne : pd ≠ []) :
    (pd.all printableCode = true →
      classifierTag jsonOk u8 (b1 :: b2 :: b3 :: b4 :: pd) = some (some "json") ∨
      classifierTag jsonOk u8 (b1 :: b2 :: b3 :: b4 :: pd) = some (some "ascii")) ∧
    ((∃ b ∈ pd, b ≤ 8) → jsonOk pd = false → (∃ c ∈ u8 pd, c ≤ 8) →
      classifierTag jsonOk u8 (b1 :: b2 :: b3 :: b4 :: pd) =
        some (some "binary")) := by
  have hlen : ¬ pd.length = 0 := by
    simpa [List.length_eq_zero] using hne
  constructor
  · intro hprint
    by_cases hj : jsonOk pd = true
    · left
      simp only [classifierTag, parseBinaryMessage]
      rw [if_neg hlen, if_neg hb2, if_pos hj]
      rfl
    · right
      have hascii : isPrintable (asciiDecode pd) = true := by
        rw [asciiDecode_of_printable hprint]
        exact hprint
      simp only [classifierTag, parseBinaryMessage]
      rw [if_neg hlen, if_neg hb2, if_neg hj, if_pos hascii]
      rfl
  · rintro ⟨b, hbmem, hb8⟩ hj ⟨c, hcmem, hc8⟩
    have hja : ¬ jsonOk pd = true := by simp [hj]
    have hascii : ¬ isPrintable (asciiDecode pd) = true := by
      intro hall
      rw [isPrintable, List.all_eq_true] at hall
      have hmem : b % 128 ∈ asciiDecode pd := List.mem_map_of_mem _ hbmem
      have hpc := hall _ hmem
      rw [Nat.mod_eq_of_lt (by omega)] at hpc
      simp only [printableCode, Bool.or_eq_true, Bool.and_eq_true,
        decide_eq_true_eq, beq_iff_eq] at hpc
      rcases hpc with ⟨h1, h2⟩ | h1 | h1 | h1 <;> omega
    have hutf8 : ¬ isPrintable (u8 pd) = true := by
      intro hall
      rw [isPrintable, List.all_eq_true] at hall
      have hpc := hall _ hcmem
      simp only [printableCode, Bool.or_eq_true, Bool.and_eq_true,
        decide_eq_true_eq, beq_iff_eq] at hpc
      rcases hpc with ⟨h1, h2⟩ | h1 | h1 | h1 <;> omega
    simp only [classifierTag, parseBinaryMessage]
    rw [if_neg hlen, if_neg hb2, if_neg hja, if_neg hascii, if_neg hutf8]
    rfl

/-- Witness for C3 at a non-telemetry frame carrying the single byte
0x00. -/
theorem classifier_printability_witness :
    ((0 : Nat) ≠ 0x14) ∧ (([0] : List Nat) ≠ []) ∧
      classifierTag (fun _ => false) id [0, 0, 0, 0, 0] = some (some "binary") :=
  ⟨by decide, by decide,
    (classifier_printability (fun _ => false) id 0 0 0 0 [0]
        (by decide) (by decide)).2
      ⟨0, by decide, by decide⟩ rfl ⟨0, by decide, by decide⟩⟩

set_option maxRecDepth 10000 in
/-- C7: calculateHash is the base64 encoding of the SHA-256 digest of the
password bytes followed by the SHA-256 digest of the lower-cased email, for
all inputs; in particular the mixed-case and lower-case spellings of the
test email hash identically with password pw, while changing only the case
of the password changes the output, so the password is not
case-normalized. -/
theorem calculate_hash_structure :
    (∀ email password : List Nat,
      calculateHash email password =
        base64Encode (sha256 (password ++ sha256 (email.map lowerByte)))) ∧
      calculateHash (strBytes "Test@Example.Com") (strBytes "pw") =
        calculateHash (strBytes "test@example.com") (strBytes "pw") ∧
      calculateHash (strBytes "test@example.com") (strBytes "PW") ≠
        calculateHash (strBytes "test@example.com") (strBytes "pw") :=
  ⟨fun _ _ => rfl, by decide, by decide⟩

end Evipy
